import Mathlib

/-!
Shallow embedding of the student CRUD service
(src/backend/src/server.js together with the table definition in
src/database/init.sql).

Modelling decisions, all taken from the source:
- A stored row mirrors the `students` table: serial `id`, unique
  `student_id` and `email`, `password` (the bcrypt hash), `name`,
  `department`, `enrollment_year`, and the two timestamps.  Timestamps
  are modelled as natural numbers; `CURRENT_TIMESTAMP` is passed to each
  mutating operation as an explicit `now` argument.
- The database is a list of rows plus the next serial value.  A failed
  INSERT still consumes a serial value (PostgreSQL sequence semantics);
  validation failures never reach the database.
- Joi validation (`studentSchema`) is a sequence of per-field checks in
  schema key order with abort-early semantics; each failure produces the
  Joi error message for that field.  Joi's email grammar is modelled as
  a nonempty local part and a domain of at least two nonempty dot
  separated segments.
- The bcrypt hash is salted and environment dependent, so the create
  handler receives the hash as an argument.
- `pg` turns a missing (undefined) body field of the PUT handler into
  NULL; writing NULL into a NOT NULL column, like violating a UNIQUE
  constraint, raises an error which the handler's catch block maps to a
  500 response.
-/

namespace StudentApi

/-- A JSON scalar as it appears in the service's response bodies. -/
inductive Value where
  | num (n : Int)
  | str (s : String)
deriving Repr, DecidableEq

/-- A JSON object, as an association list in field order. -/
abbrev JsonObj := List (String × Value)

/-- A response body: an object, an array of objects (the list endpoint),
or no body at all (DELETE success). -/
inductive Body where
  | obj (o : JsonObj)
  | arr (os : List JsonObj)
  | empty
deriving Repr, DecidableEq

/-- An HTTP response: status code and JSON body. -/
structure Response where
  status : Nat
  body : Body
deriving Repr, DecidableEq

/-- One row of the `students` table (init.sql lines 1-11). -/
structure StudentRow where
  id : Nat
  student_id : String
  name : String
  email : String
  password : String
  department : String
  enrollment_year : Int
  created_at : Nat
  updated_at : Nat
deriving Repr, DecidableEq

/-- The database: the rows of `students` and the next serial `id`. -/
structure DB where
  rows : List StudentRow
  nextId : Nat
deriving Repr, DecidableEq

/-- A freshly initialised store. -/
def emptyDB : DB := ⟨[], 1⟩

/-- The JSON body of a POST /api/students request; `none` is a missing
field. -/
structure CreatePayload where
  student_id : Option String
  name : Option String
  email : Option String
  password : Option String
  department : Option String
  enrollment_year : Option Int
deriving Repr, DecidableEq

/-- A Joi validation error: the offending field and
`error.details[0].message`. -/
structure JoiError where
  field : String
  message : String
deriving Repr, DecidableEq

/-- Joi `string().required()`: present and nonempty. -/
def checkRequiredString (field : String) (v : Option String) : Option JoiError :=
  match v with
  | none => some ⟨field, "\"" ++ field ++ "\" is required"⟩
  | some s =>
    if s = "" then some ⟨field, "\"" ++ field ++ "\" is not allowed to be empty"⟩
    else none

/-- Split a character list at every occurrence of `c` (like
`String.splitOn` on a single-character separator). -/
def splitOnChar (c : Char) : List Char → List (List Char)
  | [] => [[]]
  | x :: xs =>
    match splitOnChar c xs with
    | [] => if x = c then [[], []] else [[x]]
    | seg :: rest => if x = c then [] :: seg :: rest else (x :: seg) :: rest

/-- Model of Joi's email grammar: `local@domain` with nonempty local
part and at least two nonempty dot separated domain segments. -/
def isEmail (s : String) : Bool :=
  match splitOnChar '@' s.data with
  | [l, d] =>
    let segs := splitOnChar '.' d
    !l.isEmpty && segs.length ≥ 2 && segs.all (fun seg => !seg.isEmpty)
  | _ => false

/-- Joi `string().email().required()`. -/
def checkEmail (v : Option String) : Option JoiError :=
  match v with
  | none => some ⟨"email", "\"email\" is required"⟩
  | some s =>
    if s = "" then some ⟨"email", "\"email\" is not allowed to be empty"⟩
    else if isEmail s then none
    else some ⟨"email", "\"email\" must be a valid email"⟩

/-- Joi `string().min(6).required()`. -/
def checkPassword (v : Option String) : Option JoiError :=
  match v with
  | none => some ⟨"password", "\"password\" is required"⟩
  | some s =>
    if s = "" then some ⟨"password", "\"password\" is not allowed to be empty"⟩
    else if s.length < 6 then
      some ⟨"password", "\"password\" length must be at least 6 characters long"⟩
    else none

/-- Joi `number().integer().min(2000).max(2024).required()`. -/
def checkYear (v : Option Int) : Option JoiError :=
  match v with
  | none => some ⟨"enrollment_year", "\"enrollment_year\" is required"⟩
  | some y =>
    if y < 2000 then
      some ⟨"enrollment_year", "\"enrollment_year\" must be greater than or equal to 2000"⟩
    else if y > 2024 then
      some ⟨"enrollment_year", "\"enrollment_year\" must be less than or equal to 2024"⟩
    else none

/-- The six checks of `studentSchema` (server.js lines 23-30), in schema
key order. -/
def studentSchema (p : CreatePayload) : List (Option JoiError) :=
  [ checkRequiredString "student_id" p.student_id,
    checkRequiredString "name" p.name,
    checkEmail p.email,
    checkPassword p.password,
    checkRequiredString "department" p.department,
    checkYear p.enrollment_year ]

/-- `studentSchema.validate(req.body)` with Joi's default abort-early
behaviour: the first failing check wins. -/
def validate (p : CreatePayload) : Except JoiError CreatePayload :=
  match (studentSchema p).findSome? id with
  | some e => Except.error e
  | none => Except.ok p

/-- Whether validation succeeds. -/
def validatePasses (p : CreatePayload) : Bool :=
  match validate p with
  | Except.ok _ => true
  | Except.error _ => false

/-- The column list `id, student_id, name, email, department,
enrollment_year, created_at` shared by every RETURNING / SELECT clause
of the handlers.  Neither `password` nor `updated_at` is selected. -/
def rowToJson (r : StudentRow) : JsonObj :=
  [ ("id", Value.num r.id),
    ("student_id", Value.str r.student_id),
    ("name", Value.str r.name),
    ("email", Value.str r.email),
    ("department", Value.str r.department),
    ("enrollment_year", Value.num r.enrollment_year),
    ("created_at", Value.num r.created_at) ]

/-- The generic catch-block response of every handler. -/
def internalError : Response := ⟨500, Body.obj [("error", Value.str "Internal server error")]⟩

/-- The 404 response shared by GET one / PUT / DELETE. -/
def notFound : Response := ⟨404, Body.obj [("error", Value.str "Student not found")]⟩

/-- UNIQUE(student_id) or UNIQUE(email) would be violated by inserting
these values (init.sql lines 3 and 5). -/
def hasConflict (rows : List StudentRow) (sid em : String) : Bool :=
  rows.any (fun r => r.student_id == sid || r.email == em)

/-- PostgreSQL's 4-byte INTEGER range (the type of enrollment_year in
init.sql line 8); an out-of-range value raises 22003. -/
def int4Range (n : Int) : Bool :=
  -2147483648 ≤ n && n ≤ 2147483647

/-- The column bounds an inserted row must satisfy (init.sql lines
3-8): VARCHAR(20) student_id, VARCHAR(100) name and email, VARCHAR(255)
password hash, VARCHAR(50) department, 4-byte INTEGER year.  An
over-length value raises 22001. -/
def insertFits (sid nm em pw dept : String) (yr : Int) : Bool :=
  sid.length ≤ 20 && nm.length ≤ 100 && em.length ≤ 100 &&
  pw.length ≤ 255 && dept.length ≤ 50 && int4Range yr

/-- The column bounds the UPDATE's four assigned columns must satisfy:
VARCHAR(100) name and email, VARCHAR(50) department, 4-byte INTEGER
year. -/
def updateFits (nm em dept : String) (yr : Int) : Bool :=
  nm.length ≤ 100 && em.length ≤ 100 && dept.length ≤ 50 && int4Range yr

/-- The row a successful POST inserts: serial id from the store, field
values from the validated payload, both timestamps set to `now`. -/
def insertedRow (db : DB) (p : CreatePayload) (hash : String) (now : Nat) : StudentRow :=
  ⟨db.nextId, p.student_id.getD "", p.name.getD "", p.email.getD "", hash,
   p.department.getD "", p.enrollment_year.getD 0, now, now⟩

/-- The per-row effect of the UPDATE statement: a row matching the
external identifier gets the four supplied columns and a fresh
`updated_at`; every other row is untouched. -/
def updRow (sid nm em dept : String) (yr : Int) (t : Nat) (r : StudentRow) : StudentRow :=
  if r.student_id == sid then
    { r with name := nm, email := em, department := dept,
             enrollment_year := yr, updated_at := t }
  else r

/-- POST /api/students (server.js lines 38-71).  `hash` is the bcrypt
hash of the submitted password, `now` is `CURRENT_TIMESTAMP`.  A value
exceeding a column bound makes the INSERT raise (parameter coercion,
before any constraint check), caught as 500; a UNIQUE violation raises
after the serial was consumed, also caught as 500. -/
def createStudent (db : DB) (p : CreatePayload) (hash : String) (now : Nat) :
    Response × DB :=
  match validate p with
  | Except.error e => (⟨400, Body.obj [("error", Value.str e.message)]⟩, db)
  | Except.ok v =>
    let sid := v.student_id.getD ""
    let em := v.email.getD ""
    if !insertFits sid (v.name.getD "") em hash (v.department.getD "")
        (v.enrollment_year.getD 0) then
      (internalError, db)
    else if hasConflict db.rows sid em then
      (internalError, { db with nextId := db.nextId + 1 })
    else
      let r : StudentRow := insertedRow db v hash now
      (⟨201, Body.obj (rowToJson r)⟩, ⟨db.rows ++ [r], db.nextId + 1⟩)

/-- Insert a row into a list sorted by `created_at` descending, keeping
later-inserted rows after earlier ones on ties. -/
def insertDesc (r : StudentRow) : List StudentRow → List StudentRow
  | [] => [r]
  | x :: xs => if x.created_at < r.created_at then r :: x :: xs else x :: insertDesc r xs

/-- `ORDER BY created_at DESC`. -/
def sortByCreatedDesc (rows : List StudentRow) : List StudentRow :=
  rows.foldr insertDesc []

/-- GET /api/students (server.js lines 74-84). -/
def listStudents (db : DB) : Response × DB :=
  (⟨200, Body.arr ((sortByCreatedDesc db.rows).map rowToJson)⟩, db)

/-- GET /api/students/:student_id (server.js lines 87-104). -/
def getStudent (db : DB) (sid : String) : Response × DB :=
  match db.rows.filter (fun r => r.student_id == sid) with
  | [] => (notFound, db)
  | r :: _ => (⟨200, Body.obj (rowToJson r)⟩, db)

/-- The JSON body of a PUT request; `none` is a field absent from
`req.body` (which `pg` sends as NULL). -/
structure UpdateBody where
  name : Option String
  email : Option String
  department : Option String
  enrollment_year : Option Int
deriving Repr, DecidableEq

/-- PUT /api/students/:student_id (server.js lines 107-129).  The UPDATE
statement sets all four columns and `updated_at = CURRENT_TIMESTAMP`
unconditionally on every matching row; a NULL for a NOT NULL column, a
value exceeding a column bound, or a duplicate email raises, which the
catch block maps to 500. -/
def updateStudent (db : DB) (sid : String) (b : UpdateBody) (now : Nat) :
    Response × DB :=
  match db.rows.filter (fun r => r.student_id == sid) with
  | [] => (notFound, db)
  | r0 :: _ =>
    match b.name, b.email, b.department, b.enrollment_year with
    | some nm, some em, some dept, some yr =>
      if !updateFits nm em dept yr then
        (internalError, db)
      else if db.rows.any (fun r => r.student_id != sid && r.email == em) then
        (internalError, db)
      else
        (⟨200, Body.obj (rowToJson (updRow sid nm em dept yr now r0))⟩,
         ⟨db.rows.map (updRow sid nm em dept yr now), db.nextId⟩)
    | _, _, _, _ => (internalError, db)

/-- DELETE /api/students/:student_id (server.js lines 132-146). -/
def deleteStudent (db : DB) (sid : String) : Response × DB :=
  match db.rows.filter (fun r => r.student_id == sid) with
  | [] => (notFound, db)
  | _ :: _ => (⟨204, Body.empty⟩, ⟨db.rows.filter (fun r => r.student_id != sid), db.nextId⟩)

/-- One client request, for reasoning about operation sequences. -/
inductive Op where
  | create (p : CreatePayload) (hash : String) (now : Nat)
  | update (sid : String) (b : UpdateBody) (now : Nat)
  | delete (sid : String)
  | get (sid : String)
  | list
deriving Repr

/-- The store state after one request. -/
def applyOp (db : DB) : Op → DB
  | Op.create p hash now => (createStudent db p hash now).2
  | Op.update sid b now => (updateStudent db sid b now).2
  | Op.delete sid => (deleteStudent db sid).2
  | Op.get sid => (getStudent db sid).2
  | Op.list => (listStudents db).2

/-- The store state after a sequence of requests. -/
def applyOps (db : DB) : List Op → DB
  | [] => db
  | op :: ops => applyOps (applyOp db op) ops

/-- The uniqueness invariant of the table: no two rows share a
student_id or an email. -/
def UniqueInv (db : DB) : Prop :=
  db.rows.Pairwise (fun r r' => r.student_id ≠ r'.student_id ∧ r.email ≠ r'.email)

/-- A fully populated creation payload. -/
def mkPayload (sid nm em pw dept : String) (yr : Int) : CreatePayload :=
  ⟨some sid, some nm, some em, some pw, some dept, some yr⟩

/-- Does a JSON object have the given key? -/
def objHasKey (k : String) (o : JsonObj) : Bool :=
  o.any (fun kv => kv.1 == k)

/-- Does a body contain an object with the given key? -/
def bodyHasKey (k : String) : Body → Bool
  | Body.obj o => objHasKey k o
  | Body.arr os => os.any (objHasKey k)
  | Body.empty => false

/-- The key lists of the objects making up a body. -/
def bodyObjKeys : Body → List (List String)
  | Body.obj o => [o.map Prod.fst]
  | Body.arr os => os.map (fun o => o.map Prod.fst)
  | Body.empty => []

/-- The columns every success response exposes. -/
def studentKeys : List String :=
  ["id", "student_id", "name", "email", "department", "enrollment_year", "created_at"]

/-- A row with the given serial id and field values, both timestamps
set to `t`. -/
def mkRow (i : Nat) (sid nm em hash dept : String) (yr : Int) (t : Nat) : StudentRow :=
  ⟨i, sid, nm, em, hash, dept, yr, t, t⟩

/-- The concrete creation payload of the spec's end-to-end scenario. -/
def basePayload : CreatePayload :=
  mkPayload "STU001" "John Doe" "john@example.com" "password123" "Computer Science" 2023

/-- A second concrete payload with fresh identifier and email. -/
def secondPayload : CreatePayload :=
  mkPayload "STU002" "Jane Roe" "jane@example.com" "hunter2x" "Mathematics" 2021

/-- A third concrete payload with fresh identifier and email. -/
def thirdPayload : CreatePayload :=
  mkPayload "STU003" "Max Poe" "max@example.com" "abcdef" "Physics" 2020

/-- A store holding a single concrete row, created at time 5. -/
def dbOne : DB :=
  ⟨[⟨1, "STU001", "John Doe", "john@example.com", "HASH1", "Computer Science", 2023, 5, 5⟩], 2⟩

/-- A store holding two concrete rows with distinct identifiers and
emails. -/
def dbTwo : DB :=
  ⟨[⟨1, "STU001", "John Doe", "john@example.com", "HASH1", "Computer Science", 2023, 5, 5⟩,
    ⟨2, "STU002", "Jane Roe", "jane@example.com", "HASH2", "Mathematics", 2021, 6, 6⟩], 3⟩

end StudentApi

namespace StudentApi

theorem validatePasses_eq_true_iff (p : CreatePayload) :
    validatePasses p = true ↔ (studentSchema p).findSome? id = none := by
  unfold validatePasses validate
  cases h : (studentSchema p).findSome? id <;> simp

theorem validatePasses_iff (p : CreatePayload) :
    validatePasses p = true ↔
      (checkRequiredString "student_id" p.student_id = none ∧
       checkRequiredString "name" p.name = none ∧
       checkEmail p.email = none ∧
       checkPassword p.password = none ∧
       checkRequiredString "department" p.department = none ∧
       checkYear p.enrollment_year = none) := by
  rw [validatePasses_eq_true_iff, List.findSome?_eq_none_iff]
  simp [studentSchema]

theorem validate_ok_eq {p q : CreatePayload} (h : validate p = Except.ok q) : q = p := by
  unfold validate at h
  rcases hf : (studentSchema p).findSome? id with _ | e <;> rw [hf] at h <;> simp at h
  exact h.symm

theorem validatePasses_ok {p : CreatePayload} (h : validatePasses p = true) :
    validate p = Except.ok p := by
  unfold validatePasses at h
  rcases he : validate p with e | v
  · rw [he] at h
    simp at h
  · rw [validate_ok_eq he]

theorem validatePasses_eq_false (p : CreatePayload)
    (h : ¬(checkRequiredString "student_id" p.student_id = none ∧
           checkRequiredString "name" p.name = none ∧
           checkEmail p.email = none ∧
           checkPassword p.password = none ∧
           checkRequiredString "department" p.department = none ∧
           checkYear p.enrollment_year = none)) : validatePasses p = false := by
  cases hb : validatePasses p
  · rfl
  · exact absurd ((validatePasses_iff p).mp hb) h

/-- Claim C1: validation of a creation payload rejects enrollment_year
1999 and 2025 and accepts 2000 and 2024, rejects a 5-character password
and accepts a 6-character one, and requires all six fields
(student_id, name, email, password, department, enrollment_year). -/
theorem year_and_password_validation :
    (∀ p : CreatePayload, p.enrollment_year = some 1999 → validatePasses p = false) ∧
    (∀ p : CreatePayload, p.enrollment_year = some 2025 → validatePasses p = false) ∧
    (∀ p : CreatePayload, validatePasses p = true →
      validatePasses { p with enrollment_year := some 2000 } = true) ∧
    (∀ p : CreatePayload, validatePasses p = true →
      validatePasses { p with enrollment_year := some 2024 } = true) ∧
    (∀ (p : CreatePayload) (s : String), p.password = some s → s.length = 5 →
      validatePasses p = false) ∧
    (∀ (p : CreatePayload) (s : String), validatePasses p = true → s.length = 6 →
      validatePasses { p with password := some s } = true) ∧
    (∀ p : CreatePayload, p.student_id = none → validatePasses p = false) ∧
    (∀ p : CreatePayload, p.name = none → validatePasses p = false) ∧
    (∀ p : CreatePayload, p.email = none → validatePasses p = false) ∧
    (∀ p : CreatePayload, p.password = none → validatePasses p = false) ∧
    (∀ p : CreatePayload, p.department = none → validatePasses p = false) ∧
    (∀ p : CreatePayload, p.enrollment_year = none → validatePasses p = false) := by
  refine ⟨?_, ?_, ?_, ?_, ?_, ?_, ?_, ?_, ?_, ?_, ?_, ?_⟩
  · intro p hp
    refine validatePasses_eq_false p (fun hc => ?_)
    have h6 := hc.2.2.2.2.2
    rw [hp] at h6
    exact absurd h6 (by decide)
  · intro p hp
    refine validatePasses_eq_false p (fun hc => ?_)
    have h6 := hc.2.2.2.2.2
    rw [hp] at h6
    exact absurd h6 (by decide)
  · intro p hp
    rw [validatePasses_iff] at hp ⊢
    exact ⟨hp.1, hp.2.1, hp.2.2.1, hp.2.2.2.1, hp.2.2.2.2.1,
      (by decide : checkYear (some 2000) = none)⟩
  · intro p hp
    rw [validatePasses_iff] at hp ⊢
    exact ⟨hp.1, hp.2.1, hp.2.2.1, hp.2.2.2.1, hp.2.2.2.2.1,
      (by decide : checkYear (some 2024) = none)⟩
  · intro p s hp hlen
    refine validatePasses_eq_false p (fun hc => ?_)
    have h4 := hc.2.2.2.1
    rw [hp] at h4
    have hne : s ≠ "" := by
      intro h
      subst h
      exact absurd hlen (by decide)
    simp only [checkPassword, if_neg hne, if_pos (show s.length < 6 by omega)] at h4
    exact Option.noConfusion h4
  · intro p s hp hlen
    rw [validatePasses_iff] at hp ⊢
    have hne : s ≠ "" := by
      intro h
      subst h
      exact absurd hlen (by decide)
    refine ⟨hp.1, hp.2.1, hp.2.2.1, ?_, hp.2.2.2.2.1, hp.2.2.2.2.2⟩
    show checkPassword (some s) = none
    simp only [checkPassword, if_neg hne, if_neg (show ¬s.length < 6 by omega)]
  · intro p hp
    refine validatePasses_eq_false p (fun hc => ?_)
    have h1 := hc.1
    rw [hp] at h1
    exact absurd h1 (by decide)
  · intro p hp
    refine validatePasses_eq_false p (fun hc => ?_)
    have h2 := hc.2.1
    rw [hp] at h2
    exact absurd h2 (by decide)
  · intro p hp
    refine validatePasses_eq_false p (fun hc => ?_)
    have h3 := hc.2.2.1
    rw [hp] at h3
    exact absurd h3 (by decide)
  · intro p hp
    refine validatePasses_eq_false p (fun hc => ?_)
    have h4 := hc.2.2.2.1
    rw [hp] at h4
    exact absurd h4 (by decide)
  · intro p hp
    refine validatePasses_eq_false p (fun hc => ?_)
    have h5 := hc.2.2.2.2.1
    rw [hp] at h5
    exact absurd h5 (by decide)
  · intro p hp
    refine validatePasses_eq_false p (fun hc => ?_)
    have h6 := hc.2.2.2.2.2
    rw [hp] at h6
    exact absurd h6 (by decide)

/-- Concrete instances of claim C1 at the spec's example payload. -/
theorem year_and_password_validation_witness :
    validatePasses { basePayload with enrollment_year := some 1999 } = false ∧
    validatePasses { basePayload with enrollment_year := some 2025 } = false ∧
    validatePasses { basePayload with enrollment_year := some 2000 } = true ∧
    validatePasses { basePayload with enrollment_year := some 2024 } = true ∧
    validatePasses { basePayload with password := some "abcde" } = false ∧
    validatePasses { basePayload with password := some "abcdef" } = true ∧
    validatePasses { basePayload with student_id := none } = false ∧
    validatePasses { basePayload with enrollment_year := none } = false :=
  ⟨year_and_password_validation.1 _ rfl,
   year_and_password_validation.2.1 _ rfl,
   year_and_password_validation.2.2.1 basePayload (by decide),
   year_and_password_validation.2.2.2.1 basePayload (by decide),
   year_and_password_validation.2.2.2.2.1 _ "abcde" rfl (by decide),
   year_and_password_validation.2.2.2.2.2.1 basePayload "abcdef" (by decide) (by decide),
   year_and_password_validation.2.2.2.2.2.2.1 _ rfl,
   year_and_password_validation.2.2.2.2.2.2.2.2.2.2.2 _ rfl⟩

theorem rowToJson_keys (r : StudentRow) : (rowToJson r).map Prod.fst = studentKeys := rfl

theorem rowToJson_no_password (r : StudentRow) :
    objHasKey "password" (rowToJson r) = false := rfl

/-- Claim C2: no response of create, list, get-by-id or update ever
contains a `password` key, and every success body consists of objects
with exactly the keys id, student_id, name, email, department,
enrollment_year, created_at. -/
theorem no_password_exposure :
    ∀ (db : DB) (p : CreatePayload) (hash : String) (t1 : Nat) (sid : String)
      (b : UpdateBody) (t2 : Nat),
      bodyHasKey "password" (createStudent db p hash t1).1.body = false ∧
      bodyHasKey "password" (listStudents db).1.body = false ∧
      bodyHasKey "password" (getStudent db sid).1.body = false ∧
      bodyHasKey "password" (updateStudent db sid b t2).1.body = false ∧
      ((createStudent db p hash t1).1.status = 201 →
        bodyObjKeys (createStudent db p hash t1).1.body = [studentKeys]) ∧
      ((getStudent db sid).1.status = 200 →
        bodyObjKeys (getStudent db sid).1.body = [studentKeys]) ∧
      (∀ ks ∈ bodyObjKeys (listStudents db).1.body, ks = studentKeys) ∧
      ((updateStudent db sid b t2).1.status = 200 →
        bodyObjKeys (updateStudent db sid b t2).1.body = [studentKeys]) := by
  intro db p hash t1 sid b t2
  refine ⟨?_, ?_, ?_, ?_, ?_, ?_, ?_, ?_⟩
  · unfold createStudent
    split
    · rfl
    · dsimp only
      split
      · rfl
      · split
        · rfl
        · rfl
  · simp only [listStudents, bodyHasKey]
    rw [List.any_eq_false]
    intro o ho
    rw [List.mem_map] at ho
    obtain ⟨r, _, rfl⟩ := ho
    simp [rowToJson_no_password]
  · unfold getStudent
    split
    · rfl
    · rfl
  · unfold updateStudent
    split
    · rfl
    · split
      · split
        · rfl
        · split
          · rfl
          · rfl
      · rfl
  · unfold createStudent
    split
    · intro h
      simp at h
    · dsimp only
      split
      · intro h
        simp [internalError] at h
      · split
        · intro h
          simp [internalError] at h
        · intro _
          rfl
  · unfold getStudent
    split
    · intro h
      simp [notFound] at h
    · intro _
      rfl
  · simp only [listStudents, bodyObjKeys]
    intro ks hks
    rw [List.map_map, List.mem_map] at hks
    obtain ⟨r, _, rfl⟩ := hks
    exact rowToJson_keys r
  · unfold updateStudent
    split
    · intro h
      simp [notFound] at h
    · split
      · split
        · intro h
          simp [internalError] at h
        · split
          · intro h
            simp [internalError] at h
          · intro _
            rfl
      · intro h
        simp [internalError] at h

/-- Concrete instance of claim C2: a successful create response carries
exactly the safe columns. -/
theorem no_password_exposure_witness :
    bodyObjKeys (createStudent emptyDB basePayload "H1" 1).1.body = [studentKeys] :=
  (no_password_exposure emptyDB basePayload "H1" 1 "STU001" ⟨none, none, none, none⟩ 2).2.2.2.2.1
    (by decide)

theorem checkRequiredString_shape {f : String} {v : Option String} {e : JoiError}
    (h : checkRequiredString f v = some e) :
    e.field = f ∧ ∃ s t, e.message = s ++ f ++ t := by
  rcases v with _ | s
  · simp only [checkRequiredString] at h
    injection h with h'
    subst h'
    exact ⟨rfl, "\"", "\" is required", rfl⟩
  · simp only [checkRequiredString] at h
    split at h
    · injection h with h'
      subst h'
      exact ⟨rfl, "\"", "\" is not allowed to be empty", rfl⟩
    · exact Option.noConfusion h

theorem checkEmail_shape {v : Option String} {e : JoiError}
    (h : checkEmail v = some e) :
    e.field = "email" ∧ ∃ s t, e.message = s ++ "email" ++ t := by
  rcases v with _ | s
  · simp only [checkEmail] at h
    injection h with h'
    subst h'
    exact ⟨rfl, "\"", "\" is required", rfl⟩
  · simp only [checkEmail] at h
    split at h
    · injection h with h'
      subst h'
      exact ⟨rfl, "\"", "\" is not allowed to be empty", rfl⟩
    · split at h
      · exact Option.noConfusion h
      · injection h with h'
        subst h'
        exact ⟨rfl, "\"", "\" must be a valid email", rfl⟩

theorem checkPassword_shape {v : Option String} {e : JoiError}
    (h : checkPassword v = some e) :
    e.field = "password" ∧ ∃ s t, e.message = s ++ "password" ++ t := by
  rcases v with _ | s
  · simp only [checkPassword] at h
    injection h with h'
    subst h'
    exact ⟨rfl, "\"", "\" is required", rfl⟩
  · simp only [checkPassword] at h
    split at h
    · injection h with h'
      subst h'
      exact ⟨rfl, "\"", "\" is not allowed to be empty", rfl⟩
    · split at h
      · injection h with h'
        subst h'
        exact ⟨rfl, "\"", "\" length must be at least 6 characters long", rfl⟩
      · exact Option.noConfusion h

theorem checkYear_shape {v : Option Int} {e : JoiError}
    (h : checkYear v = some e) :
    e.field = "enrollment_year" ∧ ∃ s t, e.message = s ++ "enrollment_year" ++ t := by
  rcases v with _ | y
  · simp only [checkYear] at h
    injection h with h'
    subst h'
    exact ⟨rfl, "\"", "\" is required", rfl⟩
  · simp only [checkYear] at h
    split at h
    · injection h with h'
      subst h'
      exact ⟨rfl, "\"", "\" must be greater than or equal to 2000", rfl⟩
    · split at h
      · injection h with h'
        subst h'
        exact ⟨rfl, "\"", "\" must be less than or equal to 2024", rfl⟩
      · exact Option.noConfusion h

theorem validate_error_cases (p : CreatePayload) (e : JoiError)
    (h : validate p = Except.error e) :
    checkRequiredString "student_id" p.student_id = some e ∨
    (checkRequiredString "student_id" p.student_id = none ∧
     checkRequiredString "name" p.name = some e) ∨
    (checkRequiredString "student_id" p.student_id = none ∧
     checkRequiredString "name" p.name = none ∧
     checkEmail p.email = some e) ∨
    (checkRequiredString "student_id" p.student_id = none ∧
     checkRequiredString "name" p.name = none ∧
     checkEmail p.email = none ∧
     checkPassword p.password = some e) ∨
    (checkRequiredString "student_id" p.student_id = none ∧
     checkRequiredString "name" p.name = none ∧
     checkEmail p.email = none ∧
     checkPassword p.password = none ∧
     checkRequiredString "department" p.department = some e) ∨
    (checkRequiredString "student_id" p.student_id = none ∧
     checkRequiredString "name" p.name = none ∧
     checkEmail p.email = none ∧
     checkPassword p.password = none ∧
     checkRequiredString "department" p.department = none ∧
     checkYear p.enrollment_year = some e) := by
  unfold validate studentSchema at h
  rcases h1 : checkRequiredString "student_id" p.student_id with _ | e1 <;> rw [h1] at h
  case some =>
    simp at h
    subst h
    exact Or.inl rfl
  rcases h2 : checkRequiredString "name" p.name with _ | e2 <;> rw [h2] at h
  case some =>
    simp at h
    subst h
    exact Or.inr (Or.inl ⟨rfl, rfl⟩)
  rcases h3 : checkEmail p.email with _ | e3 <;> rw [h3] at h
  case some =>
    simp at h
    subst h
    exact Or.inr (Or.inr (Or.inl ⟨rfl, rfl, rfl⟩))
  rcases h4 : checkPassword p.password with _ | e4 <;> rw [h4] at h
  case some =>
    simp at h
    subst h
    exact Or.inr (Or.inr (Or.inr (Or.inl ⟨rfl, rfl, rfl, rfl⟩)))
  rcases h5 : checkRequiredString "department" p.department with _ | e5 <;> rw [h5] at h
  case some =>
    simp at h
    subst h
    exact Or.inr (Or.inr (Or.inr (Or.inr (Or.inl ⟨rfl, rfl, rfl, rfl, rfl⟩))))
  rcases h6 : checkYear p.enrollment_year with _ | e6 <;> rw [h6] at h
  case some =>
    simp at h
    subst h
    exact Or.inr (Or.inr (Or.inr (Or.inr (Or.inr ⟨rfl, rfl, rfl, rfl, rfl, rfl⟩))))
  simp at h

/-- Claim C7: a creation payload that fails validation yields a 400
response whose error message is the Joi message of the first offending
field in schema order, names that field, and leaves the store
untouched. -/
theorem create_rejects_invalid :
    ∀ (db : DB) (p : CreatePayload) (hash : String) (now : Nat) (e : JoiError),
      validate p = Except.error e →
      createStudent db p hash now =
        (⟨400, Body.obj [("error", Value.str e.message)]⟩, db) ∧
      (∃ s t, e.message = s ++ e.field ++ t) ∧
      ((e.field = "student_id" ∧
          checkRequiredString "student_id" p.student_id = some e) ∨
       (e.field = "name" ∧
          checkRequiredString "student_id" p.student_id = none ∧
          checkRequiredString "name" p.name = some e) ∨
       (e.field = "email" ∧
          checkRequiredString "student_id" p.student_id = none ∧
          checkRequiredString "name" p.name = none ∧
          checkEmail p.email = some e) ∨
       (e.field = "password" ∧
          checkRequiredString "student_id" p.student_id = none ∧
          checkRequiredString "name" p.name = none ∧
          checkEmail p.email = none ∧
          checkPassword p.password = some e) ∨
       (e.field = "department" ∧
          checkRequiredString "student_id" p.student_id = none ∧
          checkRequiredString "name" p.name = none ∧
          checkEmail p.email = none ∧
          checkPassword p.password = none ∧
          checkRequiredString "department" p.department = some e) ∨
       (e.field = "enrollment_year" ∧
          checkRequiredString "student_id" p.student_id = none ∧
          checkRequiredString "name" p.name = none ∧
          checkEmail p.email = none ∧
          checkPassword p.password = none ∧
          checkRequiredString "department" p.department = none ∧
          checkYear p.enrollment_year = some e)) := by
  intro db p hash now e h
  refine ⟨?_, ?_, ?_⟩
  · unfold createStudent
    rw [h]
  · rcases validate_error_cases p e h with
      h1 | ⟨_, h2⟩ | ⟨_, _, h3⟩ | ⟨_, _, _, h4⟩ | ⟨_, _, _, _, h5⟩ | ⟨_, _, _, _, _, h6⟩
    · rw [(checkRequiredString_shape h1).1]
      exact (checkRequiredString_shape h1).2
    · rw [(checkRequiredString_shape h2).1]
      exact (checkRequiredString_shape h2).2
    · rw [(checkEmail_shape h3).1]
      exact (checkEmail_shape h3).2
    · rw [(checkPassword_shape h4).1]
      exact (checkPassword_shape h4).2
    · rw [(checkRequiredString_shape h5).1]
      exact (checkRequiredString_shape h5).2
    · rw [(checkYear_shape h6).1]
      exact (checkYear_shape h6).2
  · rcases validate_error_cases p e h with
      h1 | ⟨ha, h2⟩ | ⟨ha, hb, h3⟩ | ⟨ha, hb, hc, h4⟩ | ⟨ha, hb, hc, hd, h5⟩ |
      ⟨ha, hb, hc, hd, he, h6⟩
    · exact Or.inl ⟨(checkRequiredString_shape h1).1, h1⟩
    · exact Or.inr (Or.inl ⟨(checkRequiredString_shape h2).1, ha, h2⟩)
    · exact Or.inr (Or.inr (Or.inl ⟨(checkEmail_shape h3).1, ha, hb, h3⟩))
    · exact Or.inr (Or.inr (Or.inr (Or.inl ⟨(checkPassword_shape h4).1, ha, hb, hc, h4⟩)))
    · exact Or.inr (Or.inr (Or.inr (Or.inr (Or.inl
        ⟨(checkRequiredString_shape h5).1, ha, hb, hc, hd, h5⟩))))
    · exact Or.inr (Or.inr (Or.inr (Or.inr (Or.inr
        ⟨(checkYear_shape h6).1, ha, hb, hc, hd, he, h6⟩))))

/-- Concrete instance of claim C7: a payload missing `name` (and with a
short password) is rejected with 400, the message names `name`, and the
store is unchanged. -/
theorem create_rejects_invalid_witness :
    createStudent emptyDB { basePayload with name := none, password := some "abc" } "H" 3 =
      (⟨400, Body.obj [("error", Value.str "\"name\" is required")]⟩, emptyDB) :=
  (create_rejects_invalid emptyDB
    { basePayload with name := none, password := some "abc" } "H" 3
    ⟨"name", "\"name\" is required"⟩ (by rfl)).1

theorem createStudent_unfit {db : DB} {p : CreatePayload} (hash : String) (now : Nat)
    (hv : validate p = Except.ok p)
    (hf : insertFits (p.student_id.getD "") (p.name.getD "") (p.email.getD "") hash
      (p.department.getD "") (p.enrollment_year.getD 0) = false) :
    createStudent db p hash now = (internalError, db) := by
  unfold createStudent
  rw [hv]
  dsimp only
  rw [if_pos (by simp [hf])]

theorem createStudent_ok {db : DB} {p : CreatePayload} (hash : String) (now : Nat)
    (hv : validate p = Except.ok p)
    (hf : insertFits (p.student_id.getD "") (p.name.getD "") (p.email.getD "") hash
      (p.department.getD "") (p.enrollment_year.getD 0) = true)
    (hc : hasConflict db.rows (p.student_id.getD "") (p.email.getD "") = false) :
    createStudent db p hash now =
      (⟨201, Body.obj (rowToJson (insertedRow db p hash now))⟩,
       ⟨db.rows ++ [insertedRow db p hash now], db.nextId + 1⟩) := by
  unfold createStudent
  rw [hv]
  dsimp only
  rw [if_neg (by simp [hf]), if_neg (by simp [hc])]

theorem createStudent_conflict {db : DB} {p : CreatePayload} (hash : String) (now : Nat)
    (hv : validate p = Except.ok p)
    (hf : insertFits (p.student_id.getD "") (p.name.getD "") (p.email.getD "") hash
      (p.department.getD "") (p.enrollment_year.getD 0) = true)
    (hc : hasConflict db.rows (p.student_id.getD "") (p.email.getD "") = true) :
    createStudent db p hash now = (internalError, ⟨db.rows, db.nextId + 1⟩) := by
  unfold createStudent
  rw [hv]
  dsimp only
  rw [if_neg (by simp [hf]), if_pos hc]

theorem createStudent_201 {db : DB} {p : CreatePayload} {hash : String} {now : Nat}
    (h : (createStudent db p hash now).1.status = 201) :
    validate p = Except.ok p ∧
    insertFits (p.student_id.getD "") (p.name.getD "") (p.email.getD "") hash
      (p.department.getD "") (p.enrollment_year.getD 0) = true ∧
    hasConflict db.rows (p.student_id.getD "") (p.email.getD "") = false ∧
    createStudent db p hash now =
      (⟨201, Body.obj (rowToJson (insertedRow db p hash now))⟩,
       ⟨db.rows ++ [insertedRow db p hash now], db.nextId + 1⟩) := by
  rcases hv : validate p with e | v
  · exfalso
    unfold createStudent at h
    rw [hv] at h
    simp at h
  · have hv' : validate p = Except.ok p := by rw [hv, validate_ok_eq hv]
    cases hff : insertFits (p.student_id.getD "") (p.name.getD "") (p.email.getD "") hash
        (p.department.getD "") (p.enrollment_year.getD 0)
    · exfalso
      rw [createStudent_unfit hash now hv' hff] at h
      simp [internalError] at h
    · cases hcc : hasConflict db.rows (p.student_id.getD "") (p.email.getD "")
      · exact ⟨by rw [validate_ok_eq hv], rfl, rfl,
          createStudent_ok hash now hv' hff hcc⟩
      · exfalso
        rw [createStudent_conflict hash now hv' hff hcc] at h
        simp [internalError] at h

/-- Claim C3: once a create has succeeded, a second create reusing the
same external identifier or the same email fails with the generic 500
internal-error response (never a second success, never a distinct
conflict status) and inserts nothing. -/
theorem duplicate_create_conflict :
    ∀ (db : DB) (p1 p2 : CreatePayload) (hh1 hh2 : String) (t1 t2 : Nat),
      validatePasses p2 = true →
      (p1.student_id = p2.student_id ∨ p1.email = p2.email) →
      (createStudent db p1 hh1 t1).1.status = 201 →
      (createStudent (createStudent db p1 hh1 t1).2 p2 hh2 t2).1 = internalError ∧
      (createStudent (createStudent db p1 hh1 t1).2 p2 hh2 t2).1.status = 500 ∧
      (createStudent (createStudent db p1 hh1 t1).2 p2 hh2 t2).2.rows =
        (createStudent db p1 hh1 t1).2.rows := by
  intro db p1 p2 hh1 hh2 t1 t2 hv2 hdup hs
  obtain ⟨hv1, hf1, hc1, heq⟩ := createStudent_201 hs
  have hv2' := validatePasses_ok hv2
  cases hff2 : insertFits (p2.student_id.getD "") (p2.name.getD "") (p2.email.getD "") hh2
      (p2.department.getD "") (p2.enrollment_year.getD 0)
  · rw [createStudent_unfit hh2 t2 hv2' hff2]
    exact ⟨rfl, rfl, rfl⟩
  · have hrows : (createStudent db p1 hh1 t1).2.rows =
        db.rows ++ [insertedRow db p1 hh1 t1] := by
      rw [heq]
    have hconf : hasConflict (createStudent db p1 hh1 t1).2.rows
        (p2.student_id.getD "") (p2.email.getD "") = true := by
      rw [hrows]
      unfold hasConflict
      rw [List.any_eq_true]
      refine ⟨insertedRow db p1 hh1 t1,
        List.mem_append_right _ (List.mem_singleton_self _), ?_⟩
      rcases hdup with hd | hd
      · simp [insertedRow, hd]
      · simp [insertedRow, hd]
    rw [createStudent_conflict hh2 t2 hv2' hff2 hconf]
    exact ⟨rfl, rfl, rfl⟩

/-- Concrete instance of claim C3: reusing the first record's email
makes the second create answer 500. -/
theorem duplicate_create_conflict_witness :
    (createStudent (createStudent emptyDB basePayload "H1" 1).2
       { secondPayload with email := some "john@example.com" } "H2" 2).1.status = 500 :=
  (duplicate_create_conflict emptyDB basePayload
    { secondPayload with email := some "john@example.com" } "H1" "H2" 1 2
    (by decide) (Or.inr rfl) (by decide)).2.1

theorem sortByCreatedDesc_three {a b c : StudentRow}
    (h1 : a.created_at < b.created_at) (h2 : b.created_at < c.created_at) :
    sortByCreatedDesc [a, b, c] = [c, b, a] := by
  have e2 : insertDesc b [c] = [c, b] := by
    simp only [insertDesc]
    rw [if_neg (by omega)]
  have e3 : insertDesc a [c, b] = [c, b, a] := by
    simp only [insertDesc]
    rw [if_neg (by omega), if_neg (by omega)]
  show insertDesc a (insertDesc b (insertDesc c [])) = [c, b, a]
  rw [show insertDesc c [] = [c] from rfl, e2, e3]

/-- Claim C4: the list endpoint returns every stored record ordered by
creation timestamp descending — inserting R1, R2, R3 at increasing
times yields [R3, R2, R1] — and on an empty store it returns 200 with
an empty array. -/
theorem list_newest_first :
    (∀ (sid1 nm1 em1 pw1 d1 : String) (y1 : Int) (hh1 : String)
       (sid2 nm2 em2 pw2 d2 : String) (y2 : Int) (hh2 : String)
       (sid3 nm3 em3 pw3 d3 : String) (y3 : Int) (hh3 : String) (t1 t2 t3 : Nat),
      validatePasses (mkPayload sid1 nm1 em1 pw1 d1 y1) = true →
      validatePasses (mkPayload sid2 nm2 em2 pw2 d2 y2) = true →
      validatePasses (mkPayload sid3 nm3 em3 pw3 d3 y3) = true →
      insertFits sid1 nm1 em1 hh1 d1 y1 = true →
      insertFits sid2 nm2 em2 hh2 d2 y2 = true →
      insertFits sid3 nm3 em3 hh3 d3 y3 = true →
      sid1 ≠ sid2 → sid1 ≠ sid3 → sid2 ≠ sid3 →
      em1 ≠ em2 → em1 ≠ em3 → em2 ≠ em3 →
      t1 < t2 → t2 < t3 →
      (applyOps emptyDB
        [Op.create (mkPayload sid1 nm1 em1 pw1 d1 y1) hh1 t1,
         Op.create (mkPayload sid2 nm2 em2 pw2 d2 y2) hh2 t2,
         Op.create (mkPayload sid3 nm3 em3 pw3 d3 y3) hh3 t3]).rows =
        [mkRow 1 sid1 nm1 em1 hh1 d1 y1 t1,
         mkRow 2 sid2 nm2 em2 hh2 d2 y2 t2,
         mkRow 3 sid3 nm3 em3 hh3 d3 y3 t3] ∧
      (listStudents (applyOps emptyDB
        [Op.create (mkPayload sid1 nm1 em1 pw1 d1 y1) hh1 t1,
         Op.create (mkPayload sid2 nm2 em2 pw2 d2 y2) hh2 t2,
         Op.create (mkPayload sid3 nm3 em3 pw3 d3 y3) hh3 t3])).1 =
        ⟨200, Body.arr
          [rowToJson (mkRow 3 sid3 nm3 em3 hh3 d3 y3 t3),
           rowToJson (mkRow 2 sid2 nm2 em2 hh2 d2 y2 t2),
           rowToJson (mkRow 1 sid1 nm1 em1 hh1 d1 y1 t1)]⟩) ∧
    (listStudents emptyDB).1 = ⟨200, Body.arr []⟩ := by
  refine ⟨?_, rfl⟩
  intro sid1 nm1 em1 pw1 d1 y1 hh1 sid2 nm2 em2 pw2 d2 y2 hh2
    sid3 nm3 em3 pw3 d3 y3 hh3 t1 t2 t3 hv1 hv2 hv3 hf1 hf2 hf3
    hs12 hs13 hs23 he12 he13 he23 ht12 ht23
  have s1 : createStudent emptyDB (mkPayload sid1 nm1 em1 pw1 d1 y1) hh1 t1 =
      (⟨201, Body.obj (rowToJson (mkRow 1 sid1 nm1 em1 hh1 d1 y1 t1))⟩,
       ⟨[mkRow 1 sid1 nm1 em1 hh1 d1 y1 t1], 2⟩) := by
    rw [createStudent_ok hh1 t1 (validatePasses_ok hv1) hf1 (by rfl)]
    rfl
  have s2 : createStudent ⟨[mkRow 1 sid1 nm1 em1 hh1 d1 y1 t1], 2⟩
      (mkPayload sid2 nm2 em2 pw2 d2 y2) hh2 t2 =
      (⟨201, Body.obj (rowToJson (mkRow 2 sid2 nm2 em2 hh2 d2 y2 t2))⟩,
       ⟨[mkRow 1 sid1 nm1 em1 hh1 d1 y1 t1, mkRow 2 sid2 nm2 em2 hh2 d2 y2 t2], 3⟩) := by
    rw [createStudent_ok hh2 t2 (validatePasses_ok hv2) hf2
      (by simp [hasConflict, mkPayload, mkRow, hs12, he12])]
    rfl
  have s3 : createStudent
      ⟨[mkRow 1 sid1 nm1 em1 hh1 d1 y1 t1, mkRow 2 sid2 nm2 em2 hh2 d2 y2 t2], 3⟩
      (mkPayload sid3 nm3 em3 pw3 d3 y3) hh3 t3 =
      (⟨201, Body.obj (rowToJson (mkRow 3 sid3 nm3 em3 hh3 d3 y3 t3))⟩,
       ⟨[mkRow 1 sid1 nm1 em1 hh1 d1 y1 t1, mkRow 2 sid2 nm2 em2 hh2 d2 y2 t2,
         mkRow 3 sid3 nm3 em3 hh3 d3 y3 t3], 4⟩) := by
    rw [createStudent_ok hh3 t3 (validatePasses_ok hv3) hf3
      (by simp [hasConflict, mkPayload, mkRow, hs13, hs23, he13, he23])]
    rfl
  have hdb : applyOps emptyDB
      [Op.create (mkPayload sid1 nm1 em1 pw1 d1 y1) hh1 t1,
       Op.create (mkPayload sid2 nm2 em2 pw2 d2 y2) hh2 t2,
       Op.create (mkPayload sid3 nm3 em3 pw3 d3 y3) hh3 t3] =
      ⟨[mkRow 1 sid1 nm1 em1 hh1 d1 y1 t1, mkRow 2 sid2 nm2 em2 hh2 d2 y2 t2,
        mkRow 3 sid3 nm3 em3 hh3 d3 y3 t3], 4⟩ := by
    simp only [applyOps, applyOp]
    rw [s1]
    dsimp only
    rw [s2]
    dsimp only
    rw [s3]
  refine ⟨by rw [hdb], ?_⟩
  rw [hdb]
  show (⟨200, Body.arr ((sortByCreatedDesc
    [mkRow 1 sid1 nm1 em1 hh1 d1 y1 t1, mkRow 2 sid2 nm2 em2 hh2 d2 y2 t2,
     mkRow 3 sid3 nm3 em3 hh3 d3 y3 t3]).map rowToJson)⟩ : Response) = _
  rw [sortByCreatedDesc_three ht12 ht23]
  rfl

/-- Concrete instance of claim C4: three concrete creates at times
1 < 2 < 3 list newest first. -/
theorem list_newest_first_witness :
    (listStudents (applyOps emptyDB
      [Op.create basePayload "H1" 1,
       Op.create secondPayload "H2" 2,
       Op.create thirdPayload "H3" 3])).1 =
      ⟨200, Body.arr
        [rowToJson (mkRow 3 "STU003" "Max Poe" "max@example.com" "H3" "Physics" 2020 3),
         rowToJson (mkRow 2 "STU002" "Jane Roe" "jane@example.com" "H2" "Mathematics" 2021 2),
         rowToJson (mkRow 1 "STU001" "John Doe" "john@example.com" "H1" "Computer Science" 2023 1)]⟩ :=
  (list_newest_first.1 "STU001" "John Doe" "john@example.com" "password123" "Computer Science"
    2023 "H1" "STU002" "Jane Roe" "jane@example.com" "hunter2x" "Mathematics" 2021 "H2"
    "STU003" "Max Poe" "max@example.com" "abcdef" "Physics" 2020 "H3" 1 2 3
    (by decide) (by decide) (by decide) (by decide) (by decide) (by decide)
    (by decide) (by decide) (by decide) (by decide) (by decide) (by decide)
    (by decide) (by decide)).2

/-- Claim C8: deleting an existing external identifier removes its row
permanently and answers 204 with no body; deleting an unknown
identifier answers 404 and never succeeds. -/
theorem delete_semantics :
    (∀ (db : DB) (sid : String), (∃ r ∈ db.rows, r.student_id = sid) →
      deleteStudent db sid =
        (⟨204, Body.empty⟩, ⟨db.rows.filter (fun r => r.student_id != sid), db.nextId⟩) ∧
      ∀ r ∈ (deleteStudent db sid).2.rows, r.student_id ≠ sid) ∧
    (∀ (db : DB) (sid : String), (∀ r ∈ db.rows, r.student_id ≠ sid) →
      deleteStudent db sid = (notFound, db)) := by
  constructor
  · intro db sid hex
    have hne : db.rows.filter (fun r => r.student_id == sid) ≠ [] := by
      intro hnil
      rw [List.filter_eq_nil_iff] at hnil
      obtain ⟨r, hr, he⟩ := hex
      exact hnil r hr (by simp [he])
    have heq : deleteStudent db sid =
        (⟨204, Body.empty⟩, ⟨db.rows.filter (fun r => r.student_id != sid), db.nextId⟩) := by
      unfold deleteStudent
      rcases hf : db.rows.filter (fun r => r.student_id == sid) with _ | ⟨r0, tl⟩
      · exact absurd hf hne
      · rw [hf]
    refine ⟨heq, ?_⟩
    intro r hr
    rw [heq] at hr
    simp only [List.mem_filter] at hr
    simpa using hr.2
  · intro db sid hall
    have hfil : db.rows.filter (fun r => r.student_id == sid) = [] := by
      rw [List.filter_eq_nil_iff]
      intro r hr
      simp [hall r hr]
    unfold deleteStudent
    rw [hfil]

/-- Concrete instance of claim C8: deleting the only row empties the
store with 204; deleting an unknown identifier yields 404. -/
theorem delete_semantics_witness :
    deleteStudent dbOne "STU001" = (⟨204, Body.empty⟩, ⟨[], 2⟩) ∧
    deleteStudent dbOne "STU999" = (notFound, dbOne) :=
  ⟨(delete_semantics.1 dbOne "STU001"
      ⟨⟨1, "STU001", "John Doe", "john@example.com", "HASH1", "Computer Science", 2023, 5, 5⟩,
       by decide, rfl⟩).1,
   delete_semantics.2 dbOne "STU999" (by decide)⟩

theorem updateStudent_success {db : DB} {sid : String} {r0 : StudentRow}
    {tl : List StudentRow} (nm em dept : String) (yr : Int) (t : Nat)
    (hm : db.rows.filter (fun r => r.student_id == sid) = r0 :: tl)
    (hfits : updateFits nm em dept yr = true)
    (hnoc : ∀ r ∈ db.rows, r.student_id = sid ∨ r.email ≠ em) :
    updateStudent db sid ⟨some nm, some em, some dept, some yr⟩ t =
      (⟨200, Body.obj (rowToJson (updRow sid nm em dept yr t r0))⟩,
       ⟨db.rows.map (updRow sid nm em dept yr t), db.nextId⟩) := by
  have hfalse : db.rows.any (fun r => r.student_id != sid && r.email == em) = false := by
    rw [List.any_eq_false]
    intro r hr
    rcases hnoc r hr with h | h
    · simp [h]
    · simp [h]
  unfold updateStudent
  rw [hm]
  dsimp only
  rw [if_neg (by simp [hfits]), if_neg (by simp [hfalse])]

theorem updRow_of_ne {sid nm em dept : String} {yr : Int} {t : Nat} {r : StudentRow}
    (h : r.student_id ≠ sid) : updRow sid nm em dept yr t r = r := by
  unfold updRow
  rw [if_neg (by simp [h])]

theorem updRow_of_eq {sid nm em dept : String} {yr : Int} {t : Nat} {r : StudentRow}
    (h : r.student_id = sid) :
    updRow sid nm em dept yr t r =
      { r with name := nm, email := em, department := dept,
               enrollment_year := yr, updated_at := t } := by
  unfold updRow
  rw [if_pos (by simp [h])]

theorem updRow_student_id (sid nm em dept : String) (yr : Int) (t : Nat) (r : StudentRow) :
    (updRow sid nm em dept yr t r).student_id = r.student_id := by
  unfold updRow
  split <;> rfl

theorem updRow_id (sid nm em dept : String) (yr : Int) (t : Nat) (r : StudentRow) :
    (updRow sid nm em dept yr t r).id = r.id := by
  unfold updRow
  split <;> rfl

theorem updRow_password (sid nm em dept : String) (yr : Int) (t : Nat) (r : StudentRow) :
    (updRow sid nm em dept yr t r).password = r.password := by
  unfold updRow
  split <;> rfl

theorem updRow_created_at (sid nm em dept : String) (yr : Int) (t : Nat) (r : StudentRow) :
    (updRow sid nm em dept yr t r).created_at = r.created_at := by
  unfold updRow
  split <;> rfl

/-- Counterexample to claim C6 as stated: after a successful update the
GET read-back answers 200 and reflects the new department and year, but
its SELECT list contains no `updated_at` column at all, so the returned
record exhibits no last-modified timestamp (while `created_at` is
present). -/
theorem update_read_back_counterexample :
    (updateStudent dbOne "STU001"
        ⟨some "John Doe", some "john@example.com", some "Math", some 2024⟩ 9).1.status = 200 ∧
    (getStudent (updateStudent dbOne "STU001"
        ⟨some "John Doe", some "john@example.com", some "Math", some 2024⟩ 9).2
        "STU001").1.status = 200 ∧
    bodyHasKey "department" (getStudent (updateStudent dbOne "STU001"
        ⟨some "John Doe", some "john@example.com", some "Math", some 2024⟩ 9).2
        "STU001").1.body = true ∧
    bodyHasKey "created_at" (getStudent (updateStudent dbOne "STU001"
        ⟨some "John Doe", some "john@example.com", some "Math", some 2024⟩ 9).2
        "STU001").1.body = true ∧
    bodyHasKey "updated_at" (getStudent (updateStudent dbOne "STU001"
        ⟨some "John Doe", some "john@example.com", some "Math", some 2024⟩ 9).2
        "STU001").1.body = false := by
  decide

/-- Claim C6 (amended): updating an existing record's fields and then
reading it back returns 200 with the new department and enrollment
year; the stored row's last-modified timestamp is strictly later than
its creation timestamp, but no timestamp other than `created_at`
appears in the GET response. -/
theorem update_then_read_back :
    ∀ (db : DB) (sid nm em dept : String) (yr : Int) (t : Nat)
      (r0 : StudentRow) (tl : List StudentRow),
      db.rows.filter (fun r => r.student_id == sid) = r0 :: tl →
      updateFits nm em dept yr = true →
      (∀ r ∈ db.rows, r.student_id = sid ∨ r.email ≠ em) →
      r0.created_at < t →
      (getStudent (updateStudent db sid ⟨some nm, some em, some dept, some yr⟩ t).2 sid).1 =
        ⟨200, Body.obj (rowToJson (updRow sid nm em dept yr t r0))⟩ ∧
      (rowToJson (updRow sid nm em dept yr t r0)).contains ("department", Value.str dept) ∧
      (rowToJson (updRow sid nm em dept yr t r0)).contains
        ("enrollment_year", Value.num yr) ∧
      updRow sid nm em dept yr t r0 ∈
        (updateStudent db sid ⟨some nm, some em, some dept, some yr⟩ t).2.rows ∧
      (updRow sid nm em dept yr t r0).created_at <
        (updRow sid nm em dept yr t r0).updated_at ∧
      bodyHasKey "updated_at"
        (getStudent (updateStudent db sid ⟨some nm, some em, some dept, some yr⟩ t).2
          sid).1.body = false := by
  intro db sid nm em dept yr t r0 tl hm hfits hnoc ht
  have heq := updateStudent_success nm em dept yr t hm hfits hnoc
  have hr0 : r0 ∈ db.rows.filter (fun r => r.student_id == sid) := by
    rw [hm]
    exact List.mem_cons_self r0 tl
  have hp0 : r0.student_id = sid := by
    have := (List.mem_filter.mp hr0).2
    simpa using this
  have hpred : ((fun r : StudentRow => r.student_id == sid) ∘ updRow sid nm em dept yr t) =
      (fun r : StudentRow => r.student_id == sid) := by
    funext r
    simp [Function.comp, updRow_student_id]
  have hfil : (updateStudent db sid ⟨some nm, some em, some dept, some yr⟩ t).2.rows.filter
      (fun r => r.student_id == sid) =
      updRow sid nm em dept yr t r0 :: tl.map (updRow sid nm em dept yr t) := by
    rw [heq]
    dsimp only
    rw [List.filter_map, hpred, hm]
    rfl
  have hget : (getStudent (updateStudent db sid ⟨some nm, some em, some dept, some yr⟩ t).2
      sid).1 = ⟨200, Body.obj (rowToJson (updRow sid nm em dept yr t r0))⟩ := by
    unfold getStudent
    rw [hfil]
  refine ⟨hget, ?_, ?_, ?_, ?_, ?_⟩
  · rw [updRow_of_eq hp0]
    simp [rowToJson, List.contains]
  · rw [updRow_of_eq hp0]
    simp [rowToJson, List.contains]
  · rw [heq]
    exact List.mem_map_of_mem _ (List.mem_of_mem_filter hr0)
  · rw [updRow_created_at]
    rw [updRow_of_eq hp0]
    exact ht
  · rw [hget]
    rfl

/-- Concrete instance of claim C6: create at time 5, update department
and year at time 9, read back: new values visible, stored timestamps 5
and 9. -/
theorem update_then_read_back_witness :
    (getStudent (updateStudent dbOne "STU001"
        ⟨some "John Doe", some "john@example.com", some "Math", some 2024⟩ 9).2 "STU001").1 =
      ⟨200, Body.obj (rowToJson (updRow "STU001" "John Doe" "john@example.com" "Math" 2024 9
        ⟨1, "STU001", "John Doe", "john@example.com", "HASH1", "Computer Science", 2023, 5, 5⟩))⟩ :=
  (update_then_read_back dbOne "STU001" "John Doe" "john@example.com" "Math" 2024 9
    ⟨1, "STU001", "John Doe", "john@example.com", "HASH1", "Computer Science", 2023, 5, 5⟩
    [] (by decide) (by decide) (by decide) (by decide)).1

/-- Claim C9: a successful update changes only name, email, department,
enrollment_year and updated_at of rows matching the external id —
id, student_id, password (the credential hash) and created_at are
preserved for every row, non-matching rows are untouched — and the read
operations return the store unchanged. -/
theorem update_frame :
    (∀ (db : DB) (sid nm em dept : String) (yr : Int) (t : Nat)
       (r0 : StudentRow) (tl : List StudentRow),
      db.rows.filter (fun r => r.student_id == sid) = r0 :: tl →
      updateFits nm em dept yr = true →
      (∀ r ∈ db.rows, r.student_id = sid ∨ r.email ≠ em) →
      (updateStudent db sid ⟨some nm, some em, some dept, some yr⟩ t).2.nextId = db.nextId ∧
      (updateStudent db sid ⟨some nm, some em, some dept, some yr⟩ t).2.rows.length =
        db.rows.length ∧
      ∀ (i : Nat) (hi : i < db.rows.length)
        (hi2 : i <
          (updateStudent db sid ⟨some nm, some em, some dept, some yr⟩ t).2.rows.length),
        (((updateStudent db sid ⟨some nm, some em, some dept, some yr⟩ t).2.rows.get
            ⟨i, hi2⟩).id = (db.rows.get ⟨i, hi⟩).id ∧
         ((updateStudent db sid ⟨some nm, some em, some dept, some yr⟩ t).2.rows.get
            ⟨i, hi2⟩).student_id = (db.rows.get ⟨i, hi⟩).student_id ∧
         ((updateStudent db sid ⟨some nm, some em, some dept, some yr⟩ t).2.rows.get
            ⟨i, hi2⟩).password = (db.rows.get ⟨i, hi⟩).password ∧
         ((updateStudent db sid ⟨some nm, some em, some dept, some yr⟩ t).2.rows.get
            ⟨i, hi2⟩).created_at = (db.rows.get ⟨i, hi⟩).created_at ∧
         ((db.rows.get ⟨i, hi⟩).student_id ≠ sid →
           (updateStudent db sid ⟨some nm, some em, some dept, some yr⟩ t).2.rows.get
             ⟨i, hi2⟩ = db.rows.get ⟨i, hi⟩) ∧
         ((db.rows.get ⟨i, hi⟩).student_id = sid →
           (updateStudent db sid ⟨some nm, some em, some dept, some yr⟩ t).2.rows.get
             ⟨i, hi2⟩ =
             { (db.rows.get ⟨i, hi⟩) with
                 name := nm, email := em, department := dept,
                 enrollment_year := yr, updated_at := t }))) ∧
    (∀ (db : DB) (sid : String), (getStudent db sid).2 = db) ∧
    (∀ db : DB, (listStudents db).2 = db) := by
  refine ⟨?_, ?_, fun db => rfl⟩
  · intro db sid nm em dept yr t r0 tl hm hfits hnoc
    have heq := updateStudent_success nm em dept yr t hm hfits hnoc
    rw [heq]
    refine ⟨rfl, by simp, ?_⟩
    intro i hi hi2
    have hg : (db.rows.map (updRow sid nm em dept yr t)).get ⟨i, hi2⟩ =
        updRow sid nm em dept yr t (db.rows.get ⟨i, hi⟩) := by
      simp
    rw [hg]
    refine ⟨updRow_id _ _ _ _ _ _ _, updRow_student_id _ _ _ _ _ _ _,
      updRow_password _ _ _ _ _ _ _, updRow_created_at _ _ _ _ _ _ _, ?_, ?_⟩
    · intro hne
      exact updRow_of_ne hne
    · intro hsd
      exact updRow_of_eq hsd
  · intro db sid
    unfold getStudent
    split <;> rfl

/-- Concrete instance of claim C9: the update leaves the serial counter
in place and the reads return the store unchanged. -/
theorem update_frame_witness :
    (updateStudent dbOne "STU001"
        ⟨some "John Doe", some "john@example.com", some "Math", some 2024⟩ 9).2.nextId = 2 ∧
    (getStudent dbOne "STU001").2 = dbOne ∧
    (listStudents dbOne).2 = dbOne :=
  ⟨(update_frame.1 dbOne "STU001" "John Doe" "john@example.com" "Math" 2024 9
      ⟨1, "STU001", "John Doe", "john@example.com", "HASH1", "Computer Science", 2023, 5, 5⟩
      [] (by decide) (by decide) (by decide)).1,
   update_frame.2.1 dbOne "STU001",
   update_frame.2.2 dbOne⟩

theorem getStudent_snd (db : DB) (sid : String) : (getStudent db sid).2 = db := by
  unfold getStudent
  split <;> rfl

theorem create_preserves_unique (db : DB) (p : CreatePayload) (hash : String) (now : Nat)
    (h : UniqueInv db) : UniqueInv (createStudent db p hash now).2 := by
  rcases hv : validate p with e | v
  · unfold createStudent
    rw [hv]
    exact h
  · have hv' : validate p = Except.ok p := by rw [hv, validate_ok_eq hv]
    cases hff : insertFits (p.student_id.getD "") (p.name.getD "") (p.email.getD "") hash
        (p.department.getD "") (p.enrollment_year.getD 0)
    case false =>
      rw [createStudent_unfit hash now hv' hff]
      exact h
    case true => ?_
    cases hc : hasConflict db.rows (p.student_id.getD "") (p.email.getD "")
    · rw [createStudent_ok hash now hv' hff hc]
      unfold UniqueInv at h ⊢
      dsimp only
      rw [List.pairwise_append]
      refine ⟨h, List.pairwise_singleton _ _, ?_⟩
      intro a ha b hb
      rw [List.mem_singleton] at hb
      subst hb
      unfold hasConflict at hc
      have hall := List.any_eq_false.mp hc a ha
      simp only [Bool.or_eq_true, beq_iff_eq, not_or] at hall
      simp only [insertedRow]
      exact ⟨hall.1, hall.2⟩
    · rw [createStudent_conflict hash now hv' hff hc]
      exact h

theorem update_preserves_unique (db : DB) (sid : String) (b : UpdateBody) (t : Nat)
    (h : UniqueInv db) : UniqueInv (updateStudent db sid b t).2 := by
  unfold updateStudent
  rcases hf : db.rows.filter (fun r => r.student_id == sid) with _ | ⟨r0, tl⟩
  · rw [hf]
    exact h
  · rw [hf]
    rcases b with ⟨nmo, emo, dpo, yro⟩
    rcases nmo with _ | nm
    · exact h
    rcases emo with _ | em
    · exact h
    rcases dpo with _ | dp
    · exact h
    rcases yro with _ | yr
    · exact h
    dsimp only
    split
    · exact h
    · split
      · exact h
      · rename_i hconf
        have hall : ∀ r ∈ db.rows, r.student_id = sid ∨ r.email ≠ em := by
          intro r hr
          by_cases hs : r.student_id = sid
          · exact Or.inl hs
          · refine Or.inr (fun hee => hconf ?_)
            rw [List.any_eq_true]
            exact ⟨r, hr, by simp [hs, hee]⟩
        unfold UniqueInv at h ⊢
        dsimp only
        rw [List.pairwise_map]
        refine h.imp_of_mem ?_
        intro a b ha hb hR
        constructor
        · rw [updRow_student_id, updRow_student_id]
          exact hR.1
        · by_cases has : a.student_id = sid <;> by_cases hbs : b.student_id = sid
          · exact absurd (has.trans hbs.symm) hR.1
          · rw [updRow_of_eq has, updRow_of_ne hbs]
            rcases hall b hb with hh | hh
            · exact absurd hh hbs
            · exact fun hx => hh hx.symm
          · rw [updRow_of_ne has, updRow_of_eq hbs]
            rcases hall a ha with hh | hh
            · exact absurd hh has
            · exact fun hx => hh hx
          · rw [updRow_of_ne has, updRow_of_ne hbs]
            exact hR.2

theorem delete_preserves_unique (db : DB) (sid : String)
    (h : UniqueInv db) : UniqueInv (deleteStudent db sid).2 := by
  unfold deleteStudent
  rcases hf : db.rows.filter (fun r => r.student_id == sid) with _ | ⟨r0, tl⟩
  · rw [hf]
    exact h
  · rw [hf]
    exact List.Pairwise.sublist (List.filter_sublist db.rows) h

theorem applyOp_preserves_unique (db : DB) (op : Op)
    (h : UniqueInv db) : UniqueInv (applyOp db op) := by
  cases op with
  | create p hash now => exact create_preserves_unique db p hash now h
  | update sid b now => exact update_preserves_unique db sid b now h
  | delete sid => exact delete_preserves_unique db sid h
  | get sid =>
    show UniqueInv (getStudent db sid).2
    rw [getStudent_snd]
    exact h
  | list => exact h

theorem applyOps_preserves_unique (db : DB) (ops : List Op)
    (h : UniqueInv db) : UniqueInv (applyOps db ops) := by
  induction ops generalizing db with
  | nil => exact h
  | cons op ops ih => exact ih _ (applyOp_preserves_unique db op h)

/-- Claim C10: uniqueness of student_id and email holds after every
sequence of operations on an initially empty store, and an update that
would give a record an email already held by a different record fails
with the generic 500 and leaves every record unchanged. -/
theorem uniqueness_invariant :
    (∀ ops : List Op, UniqueInv (applyOps emptyDB ops)) ∧
    (∀ (db : DB) (sid : String) (b : UpdateBody) (t : Nat) (em : String)
       (r' : StudentRow),
      b.email = some em → r' ∈ db.rows → r'.student_id ≠ sid → r'.email = em →
      (∃ r0 ∈ db.rows, r0.student_id = sid) →
      updateStudent db sid b t = (internalError, db)) := by
  constructor
  · intro ops
    exact applyOps_preserves_unique emptyDB ops List.Pairwise.nil
  · intro db sid b t em r' hbe hr' hne hem hex
    unfold updateStudent
    rcases hf : db.rows.filter (fun r => r.student_id == sid) with _ | ⟨r0, tl⟩
    · exfalso
      rw [List.filter_eq_nil_iff] at hf
      obtain ⟨q, hq, hqs⟩ := hex
      exact hf q hq (by simp [hqs])
    · rw [hf]
      rcases b with ⟨nmo, emo, dpo, yro⟩
      dsimp only at hbe
      subst hbe
      rcases nmo with _ | nm
      · rfl
      rcases dpo with _ | dp
      · rfl
      rcases yro with _ | yr
      · rfl
      dsimp only
      cases hft : updateFits nm em dp yr
      · rw [if_pos (by simp [hft])]
      · rw [if_neg (by simp [hft])]
        have hcond : db.rows.any (fun r => r.student_id != sid && r.email == em) = true := by
          rw [List.any_eq_true]
          exact ⟨r', hr', by simp [hne, hem]⟩
        rw [if_pos hcond]

/-- Concrete instance of claim C10: updating the second record's email
to the first record's email answers 500 and changes nothing. -/
theorem uniqueness_invariant_witness :
    updateStudent dbTwo "STU002"
        ⟨some "Jane Roe", some "john@example.com", some "Math", some 2021⟩ 9 =
      (internalError, dbTwo) :=
  uniqueness_invariant.2 dbTwo "STU002"
    ⟨some "Jane Roe", some "john@example.com", some "Math", some 2021⟩ 9 "john@example.com"
    ⟨1, "STU001", "John Doe", "john@example.com", "HASH1", "Computer Science", 2023, 5, 5⟩
    rfl (by decide) (by decide) rfl
    ⟨⟨2, "STU002", "Jane Roe", "jane@example.com", "HASH2", "Mathematics", 2021, 6, 6⟩,
     by decide, rfl⟩

end StudentApi
